import Mathlib

/-!
Shallow embedding of `src/pages/OrderSummary.tsx`.

The component is modelled as a pure state machine: the React `useState`
cells become fields of `ComponentState`, the backend (`saveOrder`,
`getAllOrders`, `deleteOrder`, `getTopTapas` from `../lib/supabase`) is
modelled by a `Backend` record fixing the outcome each call would have,
and every async handler becomes a function from a backend environment and
a pre-state to the post-state together with the ordered list of side
effects (backend calls, store actions, console logs, scheduled
navigations) the handler performs.  JavaScript numbers are modelled as
rationals, so sums carry no rounding.
-/

namespace OrderSummary

/-- A customer as destructured from the store (`customer.id` is used by the
save call; name/type only feed rendering). -/
structure Customer where
  id : String
  name : String
  type : String
  deriving DecidableEq

/-- One order line item: `calculateTotal` reads `category`, `price` and
`quantity`; rendering also reads `name`. -/
structure OrderItem where
  name : String
  category : String
  price : ℚ
  quantity : ℚ
  deriving DecidableEq

/-- An order joined with its customer, as returned by `getAllOrders`. -/
structure OrderWithCustomer where
  id : String
  created_at : String
  customer : Customer
  items : List OrderItem
  deriving DecidableEq

/-- The component state: one field per `useState` cell of the component,
plus the two store values `customer` and `orderItems` read via
`useStore()`. -/
structure ComponentState where
  customer : Option Customer
  orderItems : List OrderItem
  isSaving : Bool
  savedSuccessfully : Bool
  error : Option String
  allOrders : List OrderWithCustomer
  isLoading : Bool
  isDeletingOrder : Option String
  topTapas : List (String × ℚ)
  deriving DecidableEq

/-- Side effects a handler performs, in execution order. -/
inductive Effect where
  | callGetAllOrders
  | callGetTopTapas
  | callSaveOrder (customerId : String) (items : List OrderItem)
  | callDeleteOrder (orderId : String)
  | callClearOrder
  | consoleError (msg : String)
  | scheduleNavigate (path : String) (delayMs : ℕ)
  deriving DecidableEq

/-- Outcomes of the four backend operations for one execution.  A `getAllOrders`
result of `Except.ok none` models the promise resolving with a null or
undefined value. -/
structure Backend where
  getAllOrdersResult : Except Unit (Option (List OrderWithCustomer))
  getTopTapasResult : Except Unit (List (String × ℚ))
  saveOrderResult : Except Unit Unit
  deleteOrderResult : Except Unit Unit

/-- The reducer body of `calculateTotal`: skip items whose `category` is
`"tapas"`, otherwise add `price * quantity` to the accumulator. -/
def totalStep (total : ℚ) (item : OrderItem) : ℚ :=
  if item.category ≠ "tapas" then total + item.price * item.quantity else total

/-- `calculateTotal(items)`: `items.reduce(..., 0)` over `totalStep`. -/
def calculateTotal (items : List OrderItem) : ℚ :=
  items.foldl totalStep 0

/-- Modelled from the spec: the store action `clearOrder` (defined in
`src/store/useStore`, which is not among the given source files) clears the
in-progress cart, i.e. the selected customer together with the order
items. -/
def clearOrder (s : ComponentState) : ComponentState :=
  { s with customer := none, orderItems := [] }

/-- `loadOrders`: set `isLoading`, await `getAllOrders`; on success store
`orders || []`; on failure log and set the load error message; in `finally`
clear `isLoading`. -/
def loadOrders (env : Backend) (s : ComponentState) :
    ComponentState × List Effect :=
  let s1 := { s with isLoading := true }
  match env.getAllOrdersResult with
  | Except.ok orders =>
      let s2 := { s1 with allOrders := orders.getD [] }
      ({ s2 with isLoading := false }, [Effect.callGetAllOrders])
  | Except.error _ =>
      let s2 := { s1 with error := some "Error al cargar los pedidos" }
      ({ s2 with isLoading := false },
        [Effect.callGetAllOrders, Effect.consoleError "Error loading orders:"])

/-- `loadTopTapas`: await `getTopTapas`; on success store the data; on
failure only log to the console. -/
def loadTopTapas (env : Backend) (s : ComponentState) :
    ComponentState × List Effect :=
  match env.getTopTapasResult with
  | Except.ok topTapasData =>
      ({ s with topTapas := topTapasData }, [Effect.callGetTopTapas])
  | Except.error _ =>
      (s, [Effect.callGetTopTapas, Effect.consoleError "Error loading top tapas:"])

/-- `handleDeleteOrder(orderId)`: set the deleting flag, await
`deleteOrder`, then reload orders and top tapas; on failure log and set the
delete error message; in `finally` clear the deleting flag. -/
def handleDeleteOrder (env : Backend) (orderId : String) (s : ComponentState) :
    ComponentState × List Effect :=
  let s1 := { s with isDeletingOrder := some orderId }
  match env.deleteOrderResult with
  | Except.ok _ =>
      let r2 := loadOrders env s1
      let r3 := loadTopTapas env r2.1
      ({ r3.1 with isDeletingOrder := none },
        Effect.callDeleteOrder orderId :: (r2.2 ++ r3.2))
  | Except.error _ =>
      let s2 := { s1 with error := some "Error al eliminar el pedido" }
      ({ s2 with isDeletingOrder := none },
        [Effect.callDeleteOrder orderId, Effect.consoleError "Error deleting order:"])

/-- `handleConfirmOrder`: set `isSaving` and clear the error; throw if no
customer is selected; await `saveOrder(customer.id, orderItems)`; on success
set the saved flag, clear the cart, reload orders and top tapas, and
schedule a navigation to "/" after 2000 ms; any thrown error is caught,
logged and turned into the save error message; in `finally` clear
`isSaving`. -/
def handleConfirmOrder (env : Backend) (s : ComponentState) :
    ComponentState × List Effect :=
  let s1 := { s with isSaving := true, error := none }
  match s1.customer with
  | none =>
      let s2 := { s1 with
        error := some "Error al guardar el pedido. Por favor, inténtalo de nuevo." }
      ({ s2 with isSaving := false }, [Effect.consoleError "Error saving order:"])
  | some c =>
      match env.saveOrderResult with
      | Except.error _ =>
          let s2 := { s1 with
            error := some "Error al guardar el pedido. Por favor, inténtalo de nuevo." }
          ({ s2 with isSaving := false },
            [Effect.callSaveOrder c.id s1.orderItems,
              Effect.consoleError "Error saving order:"])
      | Except.ok _ =>
          let s2 := { s1 with savedSuccessfully := true }
          let s3 := clearOrder s2
          let r4 := loadOrders env s3
          let r5 := loadTopTapas env r4.1
          ({ r5.1 with isSaving := false },
            Effect.callSaveOrder c.id s1.orderItems :: Effect.callClearOrder ::
              (r4.2 ++ r5.2 ++ [Effect.scheduleNavigate "/" 2000]))

/-- The delete button of the order with id `orderId` is rendered with
`disabled={isDeletingOrder === order.id}`. -/
def deleteButtonDisabled (s : ComponentState) (orderId : String) : Bool :=
  decide (s.isDeletingOrder = some orderId)

/-- The confirm button is rendered with `disabled={isSaving}`. -/
def confirmButtonDisabled (s : ComponentState) : Bool :=
  s.isSaving

/-- A backend environment in which every call succeeds. -/
def envAllOk : Backend :=
  { getAllOrdersResult := Except.ok (some []),
    getTopTapasResult := Except.ok [],
    saveOrderResult := Except.ok (),
    deleteOrderResult := Except.ok () }

/-- A backend environment in which every call fails. -/
def envAllFail : Backend :=
  { getAllOrdersResult := Except.error (),
    getTopTapasResult := Except.error (),
    saveOrderResult := Except.error (),
    deleteOrderResult := Except.error () }

/-- Sample chargeable item. -/
def itemA : OrderItem := ⟨"Coke", "drinks", 2, 2⟩

/-- Sample tapas item. -/
def itemB : OrderItem := ⟨"Tapa1", "tapas", 1, 5⟩

/-- Another sample tapas item. -/
def itemC : OrderItem := ⟨"Tapa2", "tapas", 3, 7⟩

/-- Sample customer. -/
def cust1 : Customer := ⟨"c1", "Ana", "adult"⟩

/-- A quiescent component state with no customer selected. -/
def baseState : ComponentState :=
  { customer := none, orderItems := [], isSaving := false,
    savedSuccessfully := false, error := none, allOrders := [],
    isLoading := false, isDeletingOrder := none, topTapas := [] }

/-- A component state with a selected customer and a non-empty cart. -/
def cartState : ComponentState :=
  { baseState with customer := some cust1, orderItems := [itemA, itemB] }

/-- A backend whose `getAllOrders` resolves with a null payload. -/
def envNullOrders : Backend :=
  { envAllOk with getAllOrdersResult := Except.ok none }

/-- A state in which a save and a delete of order "A" are in flight. -/
def busyState : ComponentState :=
  { baseState with isSaving := true, isDeletingOrder := some "A" }

end OrderSummary

namespace OrderSummary

theorem totalStep_shift (l : List OrderItem) :
    ∀ a : ℚ, l.foldl totalStep a = a + l.foldl totalStep 0 := by
  induction l with
  | nil => intro a; simp
  | cons x xs ih =>
      intro a
      simp only [List.foldl_cons]
      rw [ih (totalStep a x), ih (totalStep 0 x)]
      unfold totalStep
      split <;> ring

theorem calculateTotal_eq_filterSum (items : List OrderItem) :
    calculateTotal items =
      ((items.filter fun item => decide (item.category ≠ "tapas")).map
        fun item => item.price * item.quantity).sum := by
  induction items with
  | nil => rfl
  | cons x xs ih =>
      simp only [calculateTotal, List.foldl_cons] at *
      rw [totalStep_shift]
      by_cases h : x.category = "tapas"
      · simp [totalStep, h, ih]
      · simp [totalStep, h, ih]

/-- C1: `calculateTotal` sums `price * quantity` over exactly the items whose
category is not `"tapas"` (tapas items contribute nothing), the empty
sequence yields 0, and no rounding is applied: the result is the exact
rational sum. -/
theorem calculateTotal_correct :
    (∀ items : List OrderItem,
      calculateTotal items =
        ((items.filter fun item => decide (item.category ≠ "tapas")).map
          fun item => item.price * item.quantity).sum) ∧
    calculateTotal [] = 0 := by
  refine ⟨fun items => calculateTotal_eq_filterSum items, rfl⟩

theorem calculateTotal_congr_of_filter_perm (l1 l2 : List OrderItem)
    (h : (l1.filter fun item => decide (item.category ≠ "tapas")).Perm
      (l2.filter fun item => decide (item.category ≠ "tapas"))) :
    calculateTotal l1 = calculateTotal l2 := by
  rw [calculateTotal_eq_filterSum, calculateTotal_eq_filterSum]
  exact List.Perm.sum_eq (h.map fun item => item.price * item.quantity)

/-- C8: `calculateTotal` is invariant under permutation of the item list,
and depends only on the multiset of items whose category is not `"tapas"`:
two lists whose non-tapas items agree as multisets get the same total. -/
theorem calculateTotal_perm_invariant :
    (∀ l1 l2 : List OrderItem, l1.Perm l2 → calculateTotal l1 = calculateTotal l2) ∧
    (∀ l1 l2 : List OrderItem,
      (↑(l1.filter fun item => decide (item.category ≠ "tapas")) : Multiset OrderItem) =
        ↑(l2.filter fun item => decide (item.category ≠ "tapas")) →
      calculateTotal l1 = calculateTotal l2) := by
  constructor
  · intro l1 l2 h
    exact calculateTotal_congr_of_filter_perm l1 l2 (h.filter _)
  · intro l1 l2 h
    exact calculateTotal_congr_of_filter_perm l1 l2 (Multiset.coe_eq_coe.mp h)

/-- Witness for C8: `[itemA, itemB]` is a permutation of `[itemB, itemA]`,
and `[itemA, itemB]` and `[itemA, itemC]` have the same non-tapas items, so
both pairs share a total. -/
theorem calculateTotal_perm_invariant_witness :
    List.Perm [itemA, itemB] [itemB, itemA] ∧
    calculateTotal [itemA, itemB] = calculateTotal [itemB, itemA] ∧
    calculateTotal [itemA, itemB] = calculateTotal [itemA, itemC] :=
  ⟨List.Perm.swap itemB itemA [],
    calculateTotal_perm_invariant.1 [itemA, itemB] [itemB, itemA]
      (List.Perm.swap itemB itemA []),
    calculateTotal_perm_invariant.2 [itemA, itemB] [itemA, itemC] (by decide)⟩

/-- C2: when no customer is selected, the confirm handler never invokes
`saveOrder` — the thrown precondition error short-circuits before the save
call — and the handler surfaces the save error message. -/
theorem confirm_no_customer_never_saves (env : Backend) (s : ComponentState)
    (h : s.customer = none) :
    (∀ cid items, Effect.callSaveOrder cid items ∉ (handleConfirmOrder env s).2) ∧
    (handleConfirmOrder env s).1.error =
      some "Error al guardar el pedido. Por favor, inténtalo de nuevo." := by
  unfold handleConfirmOrder
  simp [h]

/-- Witness for C2 at the quiescent state with no selected customer. -/
theorem confirm_no_customer_never_saves_witness :
    baseState.customer = none ∧
    ((∀ cid items,
        Effect.callSaveOrder cid items ∉ (handleConfirmOrder envAllOk baseState).2) ∧
      (handleConfirmOrder envAllOk baseState).1.error =
        some "Error al guardar el pedido. Por favor, inténtalo de nuevo.") :=
  ⟨rfl, confirm_no_customer_never_saves envAllOk baseState rfl⟩

/-- C3: when `saveOrder` throws, the confirm handler leaves the cart (the
selected customer and the items) unchanged, never invokes `clearOrder`,
sets the error message, leaves the saved flag as it was, and clears
`isSaving` so a retry is possible. -/
theorem confirm_save_failure_preserves_cart (env : Backend) (s : ComponentState)
    (c : Customer) (hc : s.customer = some c)
    (hf : env.saveOrderResult = Except.error ()) :
    (handleConfirmOrder env s).1.customer = s.customer ∧
    (handleConfirmOrder env s).1.orderItems = s.orderItems ∧
    Effect.callClearOrder ∉ (handleConfirmOrder env s).2 ∧
    (handleConfirmOrder env s).1.error =
      some "Error al guardar el pedido. Por favor, inténtalo de nuevo." ∧
    (handleConfirmOrder env s).1.isSaving = false ∧
    (handleConfirmOrder env s).1.savedSuccessfully = s.savedSuccessfully := by
  unfold handleConfirmOrder
  simp [hc, hf]

/-- Witness for C3 at the cart state against the all-failing backend. -/
theorem confirm_save_failure_preserves_cart_witness :
    cartState.customer = some cust1 ∧
    envAllFail.saveOrderResult = Except.error () ∧
    ((handleConfirmOrder envAllFail cartState).1.customer = cartState.customer ∧
      (handleConfirmOrder envAllFail cartState).1.orderItems = cartState.orderItems ∧
      Effect.callClearOrder ∉ (handleConfirmOrder envAllFail cartState).2 ∧
      (handleConfirmOrder envAllFail cartState).1.error =
        some "Error al guardar el pedido. Por favor, inténtalo de nuevo." ∧
      (handleConfirmOrder envAllFail cartState).1.isSaving = false ∧
      (handleConfirmOrder envAllFail cartState).1.savedSuccessfully =
        cartState.savedSuccessfully) :=
  ⟨rfl, rfl, confirm_save_failure_preserves_cart envAllFail cartState cust1 rfl rfl⟩

/-- C4: after any completed execution of the confirm, delete or load
handler — success or failure — the corresponding busy flag is cleared:
`isSaving` is false, `isDeletingOrder` is null and `isLoading` is false,
thanks to the `finally` blocks. -/
theorem busy_flags_cleared (env : Backend) (s : ComponentState) (orderId : String) :
    (handleConfirmOrder env s).1.isSaving = false ∧
    (handleDeleteOrder env orderId s).1.isDeletingOrder = none ∧
    (loadOrders env s).1.isLoading = false := by
  obtain ⟨g, t, sv, d⟩ := env
  obtain ⟨cu, oi, sflag, ss, er, ao, il, idel, tt⟩ := s
  refine ⟨?_, ?_, ?_⟩ <;>
    cases cu <;> cases sv <;> cases d <;> cases g <;> cases t <;> rfl

theorem confirm_success_trace (env : Backend) (s : ComponentState) (c : Customer)
    (hc : s.customer = some c) (hok : env.saveOrderResult = Except.ok ()) :
    ∃ e1 e2 : List Effect,
      (∀ x ∈ e1, ∃ m, x = Effect.consoleError m) ∧
      (∀ x ∈ e2, ∃ m, x = Effect.consoleError m) ∧
      (handleConfirmOrder env s).2 =
        Effect.callSaveOrder c.id s.orderItems :: Effect.callClearOrder ::
          Effect.callGetAllOrders ::
            (e1 ++ Effect.callGetTopTapas ::
              (e2 ++ [Effect.scheduleNavigate "/" 2000])) := by
  rcases hg : env.getAllOrdersResult with u | orders <;>
    rcases ht : env.getTopTapasResult with v | td
  · exact ⟨[Effect.consoleError "Error loading orders:"],
      [Effect.consoleError "Error loading top tapas:"], by simp, by simp,
      by simp [handleConfirmOrder, clearOrder, loadOrders, loadTopTapas, hc, hok, hg, ht]⟩
  · exact ⟨[Effect.consoleError "Error loading orders:"], [], by simp, by simp,
      by simp [handleConfirmOrder, clearOrder, loadOrders, loadTopTapas, hc, hok, hg, ht]⟩
  · exact ⟨[], [Effect.consoleError "Error loading top tapas:"], by simp, by simp,
      by simp [handleConfirmOrder, clearOrder, loadOrders, loadTopTapas, hc, hok, hg, ht]⟩
  · exact ⟨[], [], by simp, by simp,
      by simp [handleConfirmOrder, clearOrder, loadOrders, loadTopTapas, hc, hok, hg, ht]⟩

theorem no_navigate_on_failed_save (env : Backend) (s : ComponentState)
    (h : env.saveOrderResult = Except.error () ∨ s.customer = none) :
    ∀ p d, Effect.scheduleNavigate p d ∉ (handleConfirmOrder env s).2 := by
  intro p d
  rcases hc : s.customer with _ | c
  · simp [handleConfirmOrder, hc]
  · rcases h with hf | hnone
    · simp [handleConfirmOrder, hc, hf]
    · rw [hnone] at hc; exact Option.noConfusion hc

/-- C5: on a successful save the confirm handler sets the saved flag,
clears the cart, and its effect trace runs in order: the save call, then
`clearOrder` immediately after, then the orders reload, then the top-tapas
reload (with console logs at most interleaved), and only then — as the last
effect — a single navigation to "/" scheduled after a 2000 ms delay.  When
the save fails (or no customer is selected) no navigation is ever
scheduled. -/
theorem confirm_success_sequence (env : Backend) (s : ComponentState) (c : Customer)
    (hc : s.customer = some c) (hok : env.saveOrderResult = Except.ok ()) :
    (handleConfirmOrder env s).1.savedSuccessfully = true ∧
    (handleConfirmOrder env s).1.customer = none ∧
    (handleConfirmOrder env s).1.orderItems = [] ∧
    (∃ e1 e2 : List Effect,
      (∀ x ∈ e1, ∃ m, x = Effect.consoleError m) ∧
      (∀ x ∈ e2, ∃ m, x = Effect.consoleError m) ∧
      (handleConfirmOrder env s).2 =
        Effect.callSaveOrder c.id s.orderItems :: Effect.callClearOrder ::
          Effect.callGetAllOrders ::
            (e1 ++ Effect.callGetTopTapas ::
              (e2 ++ [Effect.scheduleNavigate "/" 2000]))) ∧
    (∀ (envF : Backend) (sF : ComponentState),
      envF.saveOrderResult = Except.error () ∨ sF.customer = none →
      ∀ p d, Effect.scheduleNavigate p d ∉ (handleConfirmOrder envF sF).2) := by
  refine ⟨?_, ?_, ?_, confirm_success_trace env s c hc hok,
    fun envF sF h => no_navigate_on_failed_save envF sF h⟩
  all_goals
    rcases hg : env.getAllOrdersResult with u | orders <;>
      rcases ht : env.getTopTapasResult with v | td <;>
        simp [handleConfirmOrder, clearOrder, loadOrders, loadTopTapas, hc, hok, hg, ht]

/-- Witness for C5 at the cart state against the all-succeeding backend. -/
theorem confirm_success_sequence_witness :
    cartState.customer = some cust1 ∧
    envAllOk.saveOrderResult = Except.ok () ∧
    ((handleConfirmOrder envAllOk cartState).1.savedSuccessfully = true ∧
      (handleConfirmOrder envAllOk cartState).1.customer = none ∧
      (handleConfirmOrder envAllOk cartState).1.orderItems = [] ∧
      (∃ e1 e2 : List Effect,
        (∀ x ∈ e1, ∃ m, x = Effect.consoleError m) ∧
        (∀ x ∈ e2, ∃ m, x = Effect.consoleError m) ∧
        (handleConfirmOrder envAllOk cartState).2 =
          Effect.callSaveOrder cust1.id cartState.orderItems :: Effect.callClearOrder ::
            Effect.callGetAllOrders ::
              (e1 ++ Effect.callGetTopTapas ::
                (e2 ++ [Effect.scheduleNavigate "/" 2000]))) ∧
      (∀ (envF : Backend) (sF : ComponentState),
        envF.saveOrderResult = Except.error () ∨ sF.customer = none →
        ∀ p d, Effect.scheduleNavigate p d ∉ (handleConfirmOrder envF sF).2)) :=
  ⟨rfl, rfl, confirm_success_sequence envAllOk cartState cust1 rfl rfl⟩

/-- Counterexample to C6 as stated: while the delete of order "A" is in
flight (`isDeletingOrder = some "A"`), the delete button of order "B" is
not disabled, so a second delete request can be issued while a delete is in
flight. -/
theorem delete_not_globally_disabled_counterexample :
    busyState.isDeletingOrder = some "A" ∧
    deleteButtonDisabled busyState "B" = false := by
  constructor <;> rfl

/-- C6 amended: while a save is in flight the confirm control is disabled,
and while a delete of order X is in flight the delete control of order X
itself is disabled — so no second save and no second delete of the same
order can be issued; but the delete controls of other orders remain
enabled, so a delete of a different order can still be issued while a
delete is in flight. -/
theorem busy_flag_disables_triggering_control (s : ComponentState) (orderId : String) :
    (s.isSaving = true → confirmButtonDisabled s = true) ∧
    (s.isDeletingOrder = some orderId → deleteButtonDisabled s orderId = true) ∧
    (∀ other : String, s.isDeletingOrder = some orderId → other ≠ orderId →
      deleteButtonDisabled s other = false) := by
  refine ⟨fun h => h, ?_, ?_⟩
  · intro h
    simp [deleteButtonDisabled, h]
  · intro other h hne
    simp only [deleteButtonDisabled, h, decide_eq_false_iff_not]
    intro hco
    exact hne (Option.some.inj hco).symm

/-- Witness for the amended C6 at the busy state. -/
theorem busy_flag_disables_triggering_control_witness :
    busyState.isSaving = true ∧
    busyState.isDeletingOrder = some "A" ∧
    ("B" : String) ≠ "A" ∧
    confirmButtonDisabled busyState = true ∧
    deleteButtonDisabled busyState "A" = true ∧
    deleteButtonDisabled busyState "B" = false :=
  ⟨rfl, rfl, by decide,
    (busy_flag_disables_triggering_control busyState "A").1 rfl,
    (busy_flag_disables_triggering_control busyState "A").2.1 rfl,
    (busy_flag_disables_triggering_control busyState "A").2.2 "B" rfl (by decide)⟩

/-- C7: on a failing orders fetch, `loadOrders` sets the user-visible load
error and still clears `isLoading` (the view leaves the Loading state); a
failing top-tapas fetch is only logged to the console: `loadTopTapas`
leaves the state completely unchanged, so it sets no error flag and never
touches `isLoading`. -/
theorem load_failure_handling (env : Backend) (s : ComponentState)
    (hg : env.getAllOrdersResult = Except.error ())
    (ht : env.getTopTapasResult = Except.error ()) :
    ((loadOrders env s).1.error = some "Error al cargar los pedidos" ∧
      (loadOrders env s).1.isLoading = false) ∧
    ((loadTopTapas env s).1 = s ∧
      Effect.consoleError "Error loading top tapas:" ∈ (loadTopTapas env s).2) := by
  refine ⟨⟨?_, ?_⟩, ?_, ?_⟩ <;> simp [loadOrders, loadTopTapas, hg, ht]

/-- Witness for C7 against the all-failing backend. -/
theorem load_failure_handling_witness :
    envAllFail.getAllOrdersResult = Except.error () ∧
    envAllFail.getTopTapasResult = Except.error () ∧
    (((loadOrders envAllFail baseState).1.error = some "Error al cargar los pedidos" ∧
        (loadOrders envAllFail baseState).1.isLoading = false) ∧
      ((loadTopTapas envAllFail baseState).1 = baseState ∧
        Effect.consoleError "Error loading top tapas:" ∈
          (loadTopTapas envAllFail baseState).2)) :=
  ⟨rfl, rfl, load_failure_handling envAllFail baseState rfl rfl⟩

/-- C9: a failed `getAllOrders` leaves `allOrders` unchanged and a failed
`getTopTapas` leaves `topTapas` unchanged: the state setters only run after
a successful fetch. -/
theorem load_failure_preserves_data (env : Backend) (s : ComponentState) :
    (env.getAllOrdersResult = Except.error () →
      (loadOrders env s).1.allOrders = s.allOrders) ∧
    (env.getTopTapasResult = Except.error () →
      (loadTopTapas env s).1.topTapas = s.topTapas) := by
  constructor
  · intro hg
    simp [loadOrders, hg]
  · intro ht
    simp [loadTopTapas, ht]

/-- Witness for C9 against the all-failing backend. -/
theorem load_failure_preserves_data_witness :
    envAllFail.getAllOrdersResult = Except.error () ∧
    envAllFail.getTopTapasResult = Except.error () ∧
    (loadOrders envAllFail cartState).1.allOrders = cartState.allOrders ∧
    (loadTopTapas envAllFail cartState).1.topTapas = cartState.topTapas :=
  ⟨rfl, rfl,
    (load_failure_preserves_data envAllFail cartState).1 rfl,
    (load_failure_preserves_data envAllFail cartState).2 rfl⟩

/-- C10: if `getAllOrders` resolves with a null or undefined payload, the
`orders || []` fallback stores the empty list in `allOrders`. -/
theorem null_orders_becomes_empty (env : Backend) (s : ComponentState)
    (h : env.getAllOrdersResult = Except.ok none) :
    (loadOrders env s).1.allOrders = [] := by
  simp [loadOrders, h]

/-- Witness for C10 against a backend resolving orders with null. -/
theorem null_orders_becomes_empty_witness :
    envNullOrders.getAllOrdersResult = Except.ok none ∧
    (loadOrders envNullOrders cartState).1.allOrders = [] :=
  ⟨rfl, null_orders_becomes_empty envNullOrders cartState rfl⟩

end OrderSummary
